import Mathlib

/-!
Verification of the cuttle-ai/websockets session-slot registry.

The registry goroutine in routes/ratelimiter.go owns four pieces of state:
a free-id slice (freeMaps), a map from id to acquisition time
(authenticatedMap), a map from id to app context (appCtxs) and a map from
user id to the list of that user connections (userMap).  We embed the
state with association lists whose operations mirror the Go map
operations, and the request-processing loop as a step function over a
flat request structure mirroring AppContextRequest.  Times are naturals,
slot and user identifiers are integers, and a socket connection is
represented as Option String: some id is a live connection carrying its
identifier string (the only thing the registry reads from it), and none is
the nil interface value -- the Ws field an HTTP acquire leaves unset.
Calling ID() on a nil connection is a nil-interface method call, i.e. a
panic that kills the goroutine; the model surfaces such panics explicitly
instead of assigning them behaviour.
-/

namespace CuttleWS

/-- Session (authConfig.Session): the registry only reads User.ID. -/
structure Session where
  userId : Int
deriving Repr, DecidableEq

/-- AppContext (config.AppContext): the registry reads and writes its ID and
Session fields; Db, Log and WebSockets do not affect registry state. -/
structure AppCtx where
  id : Int
  session : Session
deriving Repr, DecidableEq

/-- RequestType of ratelimiter.go: Get = 0, Finished = 1, CleanUp = 2, Fetch = 3. -/
inductive RequestType where
  | Get
  | Finished
  | CleanUp
  | Fetch
deriving Repr, DecidableEq

/-- AppContextRequest: the flat request structure sent on the registry channel.
The Out channel is modelled by the reply value of the step function. -/
structure Req where
  appContext : Option AppCtx := none
  type : RequestType
  exhausted : Bool := false
  session : Session := { userId := 0 }
  id : Int := 0
  ws : Option String := none
deriving Repr, DecidableEq

/-- The private state of the AppContext goroutine of ratelimiter.go. -/
structure RegState where
  freeMaps : List Int
  authenticatedMap : List (Int × Nat)
  appCtxs : List (Int × AppCtx)
  userMap : List (Int × List (Option String))
deriving Repr, DecidableEq

/-- Go map read m[k]: first entry with key k. -/
def lookupA {α : Type} : List (Int × α) → Int → Option α
  | [], _ => none
  | (k', v) :: rest, k => if k' = k then some v else lookupA rest k

/-- Go map write m[k] = v: replace the entry if the key is present, else add it. -/
def insertA {α : Type} : List (Int × α) → Int → α → List (Int × α)
  | [], k, v => [(k, v)]
  | (k', v') :: rest, k, v =>
      if k' = k then (k, v) :: rest else (k', v') :: insertA rest k v

/-- Go map delete(m, k). -/
def eraseA {α : Type} (m : List (Int × α)) (k : Int) : List (Int × α) :=
  m.filter (fun kv => kv.1 ≠ k)

/-- The Finished branch loop over the user connections
(strings.Compare(conns[i].ID(), req.Ws.ID()) == 0 at ratelimiter.go:127):
walk the list and remove the first connection whose ID compares equal to the
released one, then stop.  The comparison first calls ID() on the stored
connection and then on the released one, and either being the nil interface
panics; the result none is that panic, some is the pruned list. -/
def pruneConns : List (Option String) → Option String → Option (List (Option String))
  | [], _ => some []
  | none :: _, _ => none
  | some _ :: _, none => none
  | some c :: rest, some w =>
      if c = w then some rest
      else (pruneConns rest (some w)).map (fun l => some c :: l)

/-- The overdue test of the CleanUp branch: v.Add(maxLife).Before(n). -/
def isOverdue (ml now : Nat) (kv : Int × Nat) : Bool := kv.2 + ml < now

/-- The state after the pool-generation prologue of AppContext, for ceiling n
(config.MaxRequests): freeMaps is built by make([]int, n) -- n zero entries --
followed by appending 1..n; the three maps start empty. -/
def initState (n : Nat) : RegState :=
  { freeMaps := List.replicate n 0 ++ (List.range n).map (fun i => (i : Int) + 1)
    authenticatedMap := []
    appCtxs := []
    userMap := [] }

/-- Result of processing one request: the new state, the request echoed on the
Out channel when the branch sends one, whether the goroutine returned (the Get
branch returns after replying Exhausted), and whether it panicked (a nil
connection reached the ID() calls of the Finished pruning loop), which kills
the goroutine with whatever mutations already happened left in place. -/
structure StepOut where
  state : RegState
  reply : Option Req
  halted : Bool
  panicked : Bool
deriving Repr, DecidableEq

/-- One iteration of the AppContext loop, at time now and with
config.MaxRequestLife = ml. -/
def step (ml now : Nat) (s : RegState) (req : Req) : StepOut :=
  match req.type with
  | .Get =>
      match s.freeMaps with
      | [] =>
          { state := s, reply := some { req with exhausted := true }, halted := true
            panicked := false }
      | id :: rest =>
          let ctx : AppCtx := { id := id, session := req.session }
          let uCo := (lookupA s.userMap req.session.userId).getD []
          { state :=
              { freeMaps := rest
                authenticatedMap := insertA s.authenticatedMap id now
                appCtxs := insertA s.appCtxs ctx.id ctx
                userMap := insertA s.userMap req.session.userId (uCo ++ [req.ws]) }
            reply := some { req with appContext := some ctx, exhausted := false }
            halted := false
            panicked := false }
  | .Fetch =>
      let r := lookupA s.appCtxs req.id
      { state := s
        reply := some { req with exhausted := r.isNone, appContext := r }
        halted := false
        panicked := false }
  | .Finished =>
      match req.appContext with
      | none => { state := s, reply := none, halted := false, panicked := false }
      | some ctx =>
          let s1 : RegState :=
            { s with
                authenticatedMap := eraseA s.authenticatedMap ctx.id
                appCtxs := eraseA s.appCtxs ctx.id
                freeMaps := s.freeMaps ++ [ctx.id] }
          match lookupA s1.userMap ctx.session.userId with
          | none => { state := s1, reply := none, halted := false, panicked := false }
          | some conns =>
              match pruneConns conns req.ws with
              | none =>
                  { state := s1, reply := none, halted := false, panicked := true }
              | some conns2 =>
                  { state :=
                      { s1 with
                          userMap := insertA s1.userMap ctx.session.userId conns2 }
                    reply := none
                    halted := false
                    panicked := false }
  | .CleanUp =>
      let toBeAdded := (s.authenticatedMap.filter (isOverdue ml now)).map Prod.fst
      { state :=
          { s with
              authenticatedMap := s.authenticatedMap.filter (fun kv => !(isOverdue ml now kv))
              appCtxs := toBeAdded.foldl eraseA s.appCtxs
              freeMaps := s.freeMaps ++ toBeAdded }
        reply := none
        halted := false
        panicked := false }

/-- The AppContext loop run over a list of timestamped requests: once a branch
returns (halted) or panics, the goroutine is gone and the remaining requests
are never taken from the channel.  Returns the final state and every reply
sent, in order. -/
def runLoop (ml : Nat) : RegState → List (Req × Nat) → RegState × List Req
  | s, [] => (s, [])
  | s, (req, now) :: rest =>
      let out := step ml now s req
      if out.halted || out.panicked then (out.state, out.reply.toList)
      else
        let tail := runLoop ml out.state rest
        (tail.1, out.reply.toList ++ tail.2)

/-- Numeric value of a digit string, most significant first. -/
def charsVal (l : List Char) : Int :=
  l.foldl (fun acc c => acc * 10 + ((c.toNat : Int) - 48)) 0

/-- All characters are decimal digits and there is at least one. -/
def allDigits (l : List Char) : Bool :=
  !l.isEmpty && l.all Char.isDigit

/-- strconv.Atoi: an optional sign followed by decimal digits, erroring when
empty, malformed, or out of the 64-bit int range (in which case Go reports
ErrRange and onConnect treats it as a parse failure). -/
def atoi (str : String) : Option Int :=
  let signed : Option Int :=
    match str.toList with
    | [] => none
    | '+' :: rest => if allDigits rest then some (charsVal rest) else none
    | '-' :: rest => if allDigits rest then some (-(charsVal rest)) else none
    | l => if allDigits l then some (charsVal l) else none
  match signed with
  | none => none
  | some v => if v < -(2 ^ 63) ∨ 2 ^ 63 - 1 < v then none else some v

/-- Outcome of the socket.io connect callback: rejected means an error was
returned before the connection was established; panicked means the callback
died in a nil dereference after having stored ctxSet as the connection
context, returning neither an error nor nil; admitted is the return-nil path
that would establish the connection. -/
inductive ConnectOutcome where
  | rejected (msg : String)
  | panicked (ctxSet : Option AppCtx)
  | admitted (ctx : Option AppCtx)
deriving Repr, DecidableEq

/-- Whether the connect callback returned an error. -/
def ConnectOutcome.isReject : ConnectOutcome → Bool
  | .rejected _ => true
  | .panicked _ => false
  | .admitted _ => false

/-- onConnect of routes/route.go: read the cuttle-ai-context-id remote header
(the Get accessor yields the empty string when the header is missing), reject
when it is empty or fails Atoi; otherwise send a Fetch request to the registry
(read-only, so the registry state is unchanged and the reply context is the
appCtxs lookup) and call conn.SetContext on the reply context.  The callback
then never reaches its return nil: the Info log dereferences
resCtx.Session.User.ID, and the Fetch reply echoes the zero-value Session of
the request (onConnect sets no Session), whose User pointer is nil, so every
successfully parsed header ends in a nil-pointer panic after the context was
stored. -/
def onConnect (s : RegState) (contextHeader : String) : ConnectOutcome :=
  if contextHeader.length = 0 then
    .rejected "error while connecting. Couldn't find the app context info. This is likely to be an internal error"
  else
    match atoi contextHeader with
    | none =>
        .rejected "error while connecting. Couldn't parse the app context info. This is likely to be an internal error"
    | some cid => .panicked (lookupA s.appCtxs cid)

/-- models.Notification: the decoded body of a notification-send request.
The payload is opaque to the handler; it is represented by a string. -/
structure Notification where
  event : String
  payload : String
deriving Repr, DecidableEq

/-- Observable actions of an HTTP handler, in program order; nilEmitPanic is
the Emit method call on a nil connection handle, which panics and ends the
handler. -/
inductive Action where
  | writeError (status : Nat) (msg : String)
  | write (message : String)
  | emit (conn event payload : String)
  | nilEmitPanic
deriving Repr, DecidableEq

/-- Modelled from the spec: the FetchWs registry request used by
SendNotification is absent from the registry source revision in the tree; per
the Lookup operation of the spec it returns the fan-out set of the user,
empty when the user has no entry. -/
def fetchWs (s : RegState) (userId : Int) : List (Option String) :=
  (lookupA s.userMap userId).getD []

/-- The delivery loop of SendNotification: emit to each connection in order;
emitting through a nil handle panics and stops the loop. -/
def emitLoop (n : Notification) : List (Option String) → List Action
  | [] => []
  | some c :: rest => Action.emit c n.event n.payload :: emitLoop n rest
  | none :: _ => [Action.nilEmitPanic]

/-- SendNotification of the routes package: decode the body (on failure write
a 400 error and stop), fetch the websockets connections of the user, write the
success response, then emit the event and payload to each connection in order.
The parsed argument is the result of the JSON decode. -/
def sendNotification (parsed : Option Notification) (wsConns : List (Option String)) :
    List Action :=
  match parsed with
  | none => [.writeError 400 "Invalid Params"]
  | some n => .write "sending notitifications" :: emitLoop n wsConns

/-- Modelled from the spec: response.Write (the response package is not in the
tree) marshals its Message argument as a JSON object under the key message. -/
def renderMessageBody (msg : String) : String :=
  "\x7b\"message\":\"" ++ msg ++ "\"\x7d"

theorem lookupA_insertA_self {α : Type} (m : List (Int × α)) (k : Int) (v : α) :
    lookupA (insertA m k v) k = some v := by
  induction m with
  | nil => simp [insertA, lookupA]
  | cons kv rest ih =>
      obtain ⟨a, b⟩ := kv
      by_cases h : a = k <;> simp [insertA, lookupA, h, ih]

theorem lookupA_eq_none_of_not_mem_keys {α : Type} (m : List (Int × α)) (k : Int)
    (h : k ∉ m.map Prod.fst) : lookupA m k = none := by
  induction m with
  | nil => rfl
  | cons kv rest ih =>
      obtain ⟨a, b⟩ := kv
      simp only [List.map_cons, List.mem_cons] at h
      push_neg at h
      have ha : a ≠ k := fun he => h.1 he.symm
      simp [lookupA, ha, ih h.2]

theorem eraseA_of_lookupA_none {α : Type} (m : List (Int × α)) (k : Int)
    (h : lookupA m k = none) : eraseA m k = m := by
  induction m with
  | nil => rfl
  | cons kv rest ih =>
      obtain ⟨a, b⟩ := kv
      by_cases hk : a = k
      · simp [lookupA, hk] at h
      · simp only [lookupA, if_neg hk] at h
        simpa [eraseA, List.filter_cons, hk] using ih h

theorem lookupA_eraseA {α : Type} (m : List (Int × α)) (k k' : Int) :
    lookupA (eraseA m k) k' = if k' = k then none else lookupA m k' := by
  induction m with
  | nil => simp [eraseA, lookupA]
  | cons kv rest ih =>
      obtain ⟨a, b⟩ := kv
      by_cases hak : a = k
      · subst hak
        have h1 : eraseA ((a, b) :: rest) a = eraseA rest a := by
          simp [eraseA, List.filter_cons]
        rw [h1, ih]
        by_cases hk' : k' = a
        · simp [hk']
        · have h2 : ¬ a = k' := fun h => hk' h.symm
          simp [hk', lookupA, h2]
      · have h1 : eraseA ((a, b) :: rest) k = (a, b) :: eraseA rest k := by
          simp [eraseA, List.filter_cons, hak]
        rw [h1]
        by_cases hak' : a = k'
        · subst hak'
          simp [lookupA, hak]
        · simp [lookupA, hak', ih]

theorem lookupA_foldl_eraseA {α : Type} (ks : List Int) (m : List (Int × α)) (k : Int) :
    lookupA (ks.foldl eraseA m) k = if k ∈ ks then none else lookupA m k := by
  induction ks generalizing m with
  | nil => simp
  | cons a ks ih =>
      simp only [List.foldl_cons, ih, lookupA_eraseA]
      by_cases h : k = a <;> by_cases h2 : k ∈ ks <;> simp [h, h2]

theorem lookupA_filter_none {α : Type} (m : List (Int × α)) (p : Int × α → Bool) (k : Int)
    (h : lookupA m k = none) : lookupA (m.filter p) k = none := by
  induction m with
  | nil => simp [lookupA]
  | cons kv rest ih =>
      obtain ⟨a, b⟩ := kv
      by_cases hak : a = k
      · simp [lookupA, hak] at h
      · simp only [lookupA, if_neg hak] at h
        cases hp : p (a, b) <;> simp [List.filter_cons, hp, lookupA, hak, ih h]

theorem lookupA_filter {α : Type} (m : List (Int × α)) (p : Int × α → Bool) (k : Int)
    (hnd : (m.map Prod.fst).Nodup) :
    lookupA (m.filter p) k =
      (lookupA m k).bind (fun v => if p (k, v) then some v else none) := by
  induction m with
  | nil => simp [lookupA]
  | cons kv rest ih =>
      obtain ⟨a, b⟩ := kv
      simp only [List.map_cons, List.nodup_cons] at hnd
      by_cases hak : a = k
      · subst hak
        have hrest : lookupA rest a = none :=
          lookupA_eq_none_of_not_mem_keys rest a hnd.1
        cases hp : p (a, b) <;>
          simp [List.filter_cons, hp, lookupA, hrest, lookupA_filter_none rest p a hrest]
      · cases hp : p (a, b) <;> simp [List.filter_cons, hp, lookupA, hak, ih hnd.2]

theorem mem_keys_filter {α : Type} (m : List (Int × α)) (p : Int × α → Bool) (k : Int)
    (hnd : (m.map Prod.fst).Nodup) :
    k ∈ (m.filter p).map Prod.fst ↔ ∃ v, lookupA m k = some v ∧ p (k, v) = true := by
  induction m with
  | nil => simp [lookupA]
  | cons kv rest ih =>
      obtain ⟨a, b⟩ := kv
      simp only [List.map_cons, List.nodup_cons] at hnd
      by_cases hak : a = k
      · subst hak
        have hsub : a ∉ (rest.filter p).map Prod.fst := fun hm =>
          hnd.1 (((List.filter_sublist rest).map Prod.fst).mem hm)
        cases hp : p (a, b)
        · simp [List.filter_cons, hp, lookupA, hsub]
        · simp [List.filter_cons, hp, lookupA]
      · cases hp : p (a, b) <;>
          simp [List.filter_cons, hp, lookupA, hak, ih hnd.2, Ne.symm hak]

/-- Claim C1: the claim states that outstanding (pending plus bound) slots never
exceed the ceiling N and that Acquire beyond capacity returns Exhausted.  The
code violates it: make([]int, N) pre-fills the free pool with N zero
identifiers before 1..N are appended, so with N = 1 two successive Acquire
requests both succeed (neither reply is Exhausted) and two sessions are
outstanding, exceeding the ceiling 1. -/
theorem acquire_exceeds_ceiling :
    ((runLoop 5 (initState 1)
        [({ type := .Get, session := { userId := 7 } }, 10),
         ({ type := .Get, session := { userId := 7 } }, 11)]).2.map Req.exhausted
      = [false, false]) ∧
    (runLoop 5 (initState 1)
        [({ type := .Get, session := { userId := 7 } }, 10),
         ({ type := .Get, session := { userId := 7 } }, 11)]).1.authenticatedMap.length = 2 := by
  decide

/-- Claim C2: the claim states that free, pending and bound always partition
the range 1..N.  The code violates it already in the initial state: with N = 1
the free pool produced by the generation prologue is the list with entries 0
and 1, and 0 lies outside the range 1..N. -/
theorem init_pool_outside_range :
    (initState 1).freeMaps = [0, 1] ∧
    (0 : Int) ∈ (initState 1).freeMaps ∧ ¬ ((1 : Int) ≤ 0) := by
  decide

/-- Claim C3 counterexample: releasing slot 1, which is already in the free
pool of the initial state with N = 1, is not a no-op -- the state changes and
the free pool afterwards holds identifier 1 twice, so the same identifier is
available for allocation twice. -/
theorem release_free_slot_changes_state :
    (1 : Int) ∈ (initState 1).freeMaps ∧
    (step 5 10 (initState 1)
        { type := .Finished, appContext := some { id := 1, session := { userId := 7 } },
          ws := some "w" }).state ≠ initState 1 ∧
    (step 5 10 (initState 1)
        { type := .Finished, appContext := some { id := 1, session := { userId := 7 } },
          ws := some "w" }).state.freeMaps.count 1 = 2 := by
  decide

/-- Claim C3 amended: releasing an identifier that is already free (and has no
session entries) leaves the authenticated and context maps unchanged but
unconditionally appends the identifier to the free pool again, so the
identifier is available for allocation at least twice.  On the fan-out side:
when the owning user has no entry the branch logs and continues with the index
unchanged, and when the entry starts with a nil connection handle -- as every
entry created by the Ws-less HTTP acquires of the program does -- the pruning
loop panics at its first ID() call, killing the goroutine with the fan-out
index likewise unchanged. -/
theorem release_free_slot_appends_again (ml now : Nat) (s : RegState) (ctx : AppCtx)
    (w : Option String) (hfree : ctx.id ∈ s.freeMaps)
    (hauth : lookupA s.authenticatedMap ctx.id = none)
    (hctx : lookupA s.appCtxs ctx.id = none) :
    (step ml now s { type := .Finished, appContext := some ctx, ws := w }).state.freeMaps
        = s.freeMaps ++ [ctx.id] ∧
    2 ≤ (step ml now s
          { type := .Finished, appContext := some ctx, ws := w }).state.freeMaps.count ctx.id ∧
    (step ml now s { type := .Finished, appContext := some ctx, ws := w }).state.authenticatedMap
        = s.authenticatedMap ∧
    (step ml now s { type := .Finished, appContext := some ctx, ws := w }).state.appCtxs
        = s.appCtxs ∧
    (lookupA s.userMap ctx.session.userId = none →
      (step ml now s { type := .Finished, appContext := some ctx, ws := w }).state.userMap
          = s.userMap ∧
      (step ml now s { type := .Finished, appContext := some ctx, ws := w }).panicked
          = false) ∧
    (∀ cs, lookupA s.userMap ctx.session.userId = some (none :: cs) →
      (step ml now s { type := .Finished, appContext := some ctx, ws := w }).panicked
          = true ∧
      (step ml now s { type := .Finished, appContext := some ctx, ws := w }).state.userMap
          = s.userMap) := by
  have e1 := eraseA_of_lookupA_none s.authenticatedMap ctx.id hauth
  have e2 := eraseA_of_lookupA_none s.appCtxs ctx.id hctx
  refine ⟨?_, ?_, ?_, ?_, ?_, ?_⟩
  · cases h : lookupA s.userMap ctx.session.userId with
    | none => simp [step, h]
    | some conns => cases hp : pruneConns conns w <;> simp [step, h, hp]
  · cases h : lookupA s.userMap ctx.session.userId with
    | none => simp [step, h, List.count_append]; exact hfree
    | some conns =>
        cases hp : pruneConns conns w <;>
          simp [step, h, hp, List.count_append] <;> exact hfree
  · cases h : lookupA s.userMap ctx.session.userId with
    | none => simp [step, h, e1]
    | some conns => cases hp : pruneConns conns w <;> simp [step, h, hp, e1]
  · cases h : lookupA s.userMap ctx.session.userId with
    | none => simp [step, h, e2]
    | some conns => cases hp : pruneConns conns w <;> simp [step, h, hp, e2]
  · intro h
    simp [step, h]
  · intro cs h
    simp [step, h, pruneConns]

theorem release_free_slot_appends_again_witness :
    ((1 : Int) ∈ (initState 1).freeMaps) ∧
    (step 5 10 (initState 1)
        { type := .Finished, appContext := some { id := 1, session := { userId := 7 } },
          ws := some "w" }).state.freeMaps = (initState 1).freeMaps ++ [1] :=
  ⟨by decide,
   (release_free_slot_appends_again 5 10 (initState 1)
      { id := 1, session := { userId := 7 } } (some "w") (by decide) rfl rfl).1⟩

/-- Claim C7 counterexample: the claim states that Acquire never modifies the
user fan-out index, but a successful Get request appends the request connection
to the fan-out list of the requesting user: from the empty fan-out index of the
initial state, one Acquire for user 7 with connection w yields a fan-out index
holding w for user 7. -/
theorem acquire_modifies_fanout :
    (initState 1).userMap = [] ∧
    (step 5 10 (initState 1)
        { type := .Get, session := { userId := 7 }, ws := some "w" }).state.userMap
      = [(7, [some "w"])] := by
  decide

/-- Claim C7 amended: an exhausted Acquire leaves the registry state (hence
the fan-out index) unchanged, but a successful Acquire appends the Ws handle
of the request to the fan-out list of the requesting user (for HTTP-issued
acquires this is the nil connection). -/
theorem acquire_fanout_effect (ml now : Nat) (s : RegState) (req : Req)
    (ht : req.type = .Get) :
    (s.freeMaps = [] → (step ml now s req).state = s) ∧
    (∀ i rest, s.freeMaps = i :: rest →
        (step ml now s req).state.userMap
          = insertA s.userMap req.session.userId
              (((lookupA s.userMap req.session.userId).getD []) ++ [req.ws])) := by
  constructor
  · intro h
    simp [step, ht, h]
  · intro i rest h
    simp [step, ht, h]

theorem acquire_fanout_effect_witness :
    (step 5 10 (initState 1)
        { type := .Get, session := { userId := 7 }, ws := some "w" }).state.userMap
      = insertA (initState 1).userMap 7
          (((lookupA (initState 1).userMap 7).getD []) ++ [some "w"]) :=
  (acquire_fanout_effect 5 10 (initState 1)
      { type := .Get, session := { userId := 7 }, ws := some "w" } rfl).2 0 [1] (by decide)

/-- Claim C4 counterexample: with maxLife 5, user 7 acquires slot 0 at time 10
and the slot is then bound by a successful Fetch at time 11 (the reply is not
Exhausted, so a session was found and attached to the connection).  CleanUp at
time 16 nevertheless reclaims it -- the authenticated map becomes empty and 0
returns to the free pool -- although the claim says a bound session is left
untouched regardless of its age. -/
theorem reclaim_frees_bound_session :
    ((step 5 11 (step 5 10 (initState 1)
        { type := .Get, session := { userId := 7 } }).state
        { type := .Fetch, id := 0, ws := some "connA" }).reply.map Req.exhausted
      = some false) ∧
    (step 5 16 (step 5 11 (step 5 10 (initState 1)
        { type := .Get, session := { userId := 7 } }).state
        { type := .Fetch, id := 0, ws := some "connA" }).state
        { type := .CleanUp }).state.authenticatedMap = [] ∧
    (step 5 16 (step 5 11 (step 5 10 (initState 1)
        { type := .Get, session := { userId := 7 } }).state
        { type := .Fetch, id := 0, ws := some "connA" }).state
        { type := .CleanUp }).state.freeMaps = [1, 0] := by
  decide

/-- Claim C4 amended: CleanUp frees exactly the identifiers in the
authenticated map whose acquisition time plus maxLife is strictly before now,
appending them to the free pool and dropping their authenticated and context
entries; the fan-out index is untouched.  Binding a slot does not remove it
from the authenticated map, so bound sessions are not exempt -- the selection
depends only on age. -/
theorem reclaim_frees_exactly_overdue (ml now : Nat) (s : RegState) (k : Int)
    (hnd : (s.authenticatedMap.map Prod.fst).Nodup) :
    (step ml now s { type := .CleanUp }).state.userMap = s.userMap ∧
    (step ml now s { type := .CleanUp }).state.freeMaps
      = s.freeMaps ++ (s.authenticatedMap.filter (isOverdue ml now)).map Prod.fst ∧
    (k ∈ (s.authenticatedMap.filter (isOverdue ml now)).map Prod.fst
       ↔ ∃ t, lookupA s.authenticatedMap k = some t ∧ t + ml < now) ∧
    lookupA (step ml now s { type := .CleanUp }).state.authenticatedMap k
      = (lookupA s.authenticatedMap k).bind
          (fun t => if t + ml < now then none else some t) ∧
    lookupA (step ml now s { type := .CleanUp }).state.appCtxs k
      = (if k ∈ (s.authenticatedMap.filter (isOverdue ml now)).map Prod.fst
         then none else lookupA s.appCtxs k) := by
  refine ⟨?_, ?_, ?_, ?_, ?_⟩
  · simp [step]
  · simp [step]
  · rw [mem_keys_filter _ _ _ hnd]
    simp [isOverdue]
  · simp only [step]
    rw [lookupA_filter _ _ _ hnd]
    cases hl : lookupA s.authenticatedMap k
    · simp
    · rename_i t
      by_cases hp : t + ml < now <;> simp [isOverdue, hp]
  · simp only [step]
    rw [lookupA_foldl_eraseA]

theorem reclaim_frees_exactly_overdue_witness :
    ((({ freeMaps := [], authenticatedMap := [(0, 10), (1, 20)], appCtxs := [],
         userMap := [] } : RegState).authenticatedMap.map Prod.fst).Nodup) ∧
    lookupA (step 5 16
        { freeMaps := [], authenticatedMap := [(0, 10), (1, 20)], appCtxs := [],
          userMap := [] }
        { type := .CleanUp }).state.authenticatedMap 0 = none :=
  ⟨by decide, by
    have h := (reclaim_frees_exactly_overdue 5 16
        { freeMaps := [], authenticatedMap := [(0, 10), (1, 20)], appCtxs := [],
          userMap := [] } 0 (by decide)).2.2.2.1
    rw [h]
    decide⟩

/-- Claim C5 counterexample: after user 7 acquires slot 0 with connection w, a
Fetch for slot 0 with connection connA succeeds (the reply carries the session,
not Exhausted), yet the registry state is completely unchanged: the slot is not
transitioned out of the authenticated (pending) map and connA is not inserted
into the fan-out set of user 7, which still holds only w -- contradicting the
claim that Bind transitions the slot to bound and inserts the handle. -/
theorem fetch_does_not_insert_fanout :
    ((step 5 11 (step 5 10 (initState 1)
        { type := .Get, session := { userId := 7 }, ws := some "w" }).state
        { type := .Fetch, id := 0, ws := some "connA" }).reply.map Req.exhausted
      = some false) ∧
    (step 5 11 (step 5 10 (initState 1)
        { type := .Get, session := { userId := 7 }, ws := some "w" }).state
        { type := .Fetch, id := 0, ws := some "connA" }).state
      = (step 5 10 (initState 1)
          { type := .Get, session := { userId := 7 }, ws := some "w" }).state ∧
    lookupA (step 5 11 (step 5 10 (initState 1)
        { type := .Get, session := { userId := 7 }, ws := some "w" }).state
        { type := .Fetch, id := 0, ws := some "connA" }).state.userMap 7 = some [some "w"] := by
  decide

/-- Claim C5 amended: Fetch is read-only.  It returns the stored session for
the requested identifier when present and the Exhausted (not-found) flag when
absent, and in both cases the registry state is unchanged: there is no
pending-to-bound transition and the connection handle is not inserted into the
fan-out index (that insertion happens during Acquire instead). -/
theorem fetch_readonly (ml now : Nat) (s : RegState) (req : Req)
    (ht : req.type = .Fetch) :
    step ml now s req =
      { state := s
        reply := some { req with
                        exhausted := (lookupA s.appCtxs req.id).isNone
                        appContext := lookupA s.appCtxs req.id }
        halted := false
        panicked := false } := by
  simp [step, ht]

theorem fetch_readonly_witness :
    step 5 11 (initState 1) { type := .Fetch, id := 0, ws := some "connA" } =
      { state := initState 1
        reply := some { type := .Fetch
                        id := 0
                        ws := some "connA"
                        exhausted := (lookupA (initState 1).appCtxs 0).isNone
                        appContext := lookupA (initState 1).appCtxs 0 }
        halted := false
        panicked := false } :=
  fetch_readonly 5 11 (initState 1) { type := .Fetch, id := 0, ws := some "connA" } rfl

/-- Claim C6 counterexample: with N = 2 the free pool after the generation
prologue is the queue 0, 0, 1, 2 (the make slip pre-fills two zeros), so three
successive Acquires from the initial state yield slots 0, 0 and 1 with no
Exhausted reply -- not slots 1 and 2 then Exhausted as the claimed scenario
asserts.  Moreover the pool is a queue popped at the front, not a set ordered
by identifier: at a registry state whose free pool is the queue 2, 1 an
Acquire returns slot 2 even though slot 1 is also free and lower. -/
theorem acquire_not_lowest :
    ((runLoop 5 (initState 2)
        [({ type := .Get, session := { userId := 7 } }, 10),
         ({ type := .Get, session := { userId := 7 } }, 11),
         ({ type := .Get, session := { userId := 7 } }, 12)]).2.map
        (fun r => (r.exhausted, r.appContext.map AppCtx.id))
      = [(false, some 0), (false, some 0), (false, some 1)]) ∧
    ((step 5 20
        { freeMaps := [2, 1]
          authenticatedMap := [(0, 10)]
          appCtxs := [(0, { id := 0, session := { userId := 7 } })]
          userMap := [(7, [none])] }
        { type := .Get, session := { userId := 7 } }).reply.map
        (fun r => r.appContext.map AppCtx.id) = some (some 2)) ∧
    (1 : Int) ∈ ([2, 1] : List Int) ∧ (1 : Int) < 2 := by
  decide

/-- Claim C6 amended: when the free pool is non-empty, Acquire pops the FRONT
of the free queue (first-in-first-out, not the lowest identifier): the reply
carries a session whose identifier is the head of the pool and whose user
identity is the one supplied, the acquisition time is recorded for that
identifier, the head is removed from the pool, and the loop continues without
halting or panicking.  With N = 2 the initial queue is 0, 0, 1, 2, so
successive Acquires yield those identifiers in queue order. -/
theorem acquire_pops_front (ml now : Nat) (s : RegState) (req : Req) (i : Int)
    (rest : List Int) (ht : req.type = .Get) (hf : s.freeMaps = i :: rest) :
    (∃ ctx : AppCtx, (step ml now s req).reply
        = some { req with appContext := some ctx, exhausted := false }
      ∧ ctx.id = i ∧ ctx.session = req.session) ∧
    lookupA (step ml now s req).state.authenticatedMap i = some now ∧
    (step ml now s req).state.freeMaps = rest ∧
    (step ml now s req).halted = false ∧
    (step ml now s req).panicked = false := by
  refine ⟨⟨{ id := i, session := req.session }, ?_, rfl, rfl⟩, ?_, ?_, ?_, ?_⟩ <;>
    simp [step, ht, hf, lookupA_insertA_self]

theorem acquire_pops_front_witness :
    lookupA (step 5 10 (initState 1)
        { type := .Get, session := { userId := 7 }, ws := some "w" }).state.authenticatedMap 0
      = some 10 :=
  (acquire_pops_front 5 10 (initState 1)
      { type := .Get, session := { userId := 7 }, ws := some "w" } 0 [1] rfl (by decide)).2.1

/-- Claim C8 counterexample: onConnect with remote header 5 against the
initial registry, which holds no session for identifier 5, does NOT reject the
connection -- no error is returned to the transport, contradicting the claim
that every no-matching-session case is rejected.  Instead the callback stores
the nil fetch result as the connection context and then dies in the
nil-pointer panic of its logging line. -/
theorem onConnect_no_reject_without_session :
    lookupA (initState 1).appCtxs 5 = none ∧
    onConnect (initState 1) "5" = ConnectOutcome.panicked none ∧
    (onConnect (initState 1) "5").isReject = false := by
  decide

/-- Claim C8 amended: the connect callback rejects the connection with a
protocol-level error exactly when the remote-supplied identifier header is
missing (empty) or fails to parse as an integer.  Whenever the header parses,
the callback stores the fetch result (nil when no session matches) as the
connection context and then panics dereferencing the nil User pointer of the
zero-value Session echoed in the Fetch reply, so it neither rejects nor
admits: no connection is ever admitted by a returned nil. -/
theorem onConnect_reject_iff (s : RegState) (h : String) :
    ((onConnect s h).isReject = (h.length == 0 || (atoi h).isNone)) ∧
    (∀ cid : Int, atoi h = some cid →
        onConnect s h = ConnectOutcome.panicked (lookupA s.appCtxs cid)) ∧
    (∀ ctx : Option AppCtx, onConnect s h ≠ ConnectOutcome.admitted ctx) := by
  refine ⟨?_, ?_, ?_⟩
  · by_cases hl : h.length = 0
    · simp [onConnect, hl, ConnectOutcome.isReject]
    · cases ha : atoi h <;> simp [onConnect, hl, ha, ConnectOutcome.isReject]
  · intro cid hcid
    obtain ⟨l⟩ := h
    cases l with
    | nil => exact Option.noConfusion hcid
    | cons c cs =>
        have hne : ¬ (String.mk (c :: cs)).length = 0 := by
          simp [String.length]
        simp [onConnect, hne, hcid]
  · intro ctx
    by_cases hl : h.length = 0
    · simp [onConnect, hl]
    · cases ha : atoi h <;> simp [onConnect, hl, ha]

theorem onConnect_reject_iff_witness :
    onConnect (initState 1) "5" = ConnectOutcome.panicked (lookupA (initState 1).appCtxs 5) :=
  (onConnect_reject_iff (initState 1) "5").2.1 5 (by decide)

/-- Claim C9: the handler does write the success response synchronously and
before any delivery -- the write action precedes every emit action -- but the
body it writes is the misspelled sending notitifications, not the exact body
sending notifications stated by the claim; the two rendered bodies differ. -/
theorem sendNotification_body_typo :
    (sendNotification (some { event := "e", payload := "p" })
        (fetchWs { freeMaps := [], authenticatedMap := [], appCtxs := [],
                   userMap := [(7, [some "c1", some "c2"])] } 7)
      = [Action.write "sending notitifications",
         Action.emit "c1" "e" "p", Action.emit "c2" "e" "p"]) ∧
    renderMessageBody "sending notitifications"
      ≠ renderMessageBody "sending notifications" := by
  decide

/-- Claim C10: when a Get request arrives while the free pool is empty, the
loop replies Exhausted with the state unchanged and then RETURNS from its
processing loop: whatever requests of whatever type follow on the channel,
none is ever processed and no further reply is sent (in the Go program every
later sender therefore blocks forever on the unserviced channel).  The run of
the loop on any such request sequence ends with exactly that one reply and the
unchanged state, independent of the remaining requests. -/
theorem exhausted_get_halts_loop (ml : Nat) (s : RegState) (req : Req) (now : Nat)
    (rest : List (Req × Nat)) (ht : req.type = .Get) (hf : s.freeMaps = []) :
    runLoop ml s ((req, now) :: rest) = (s, [{ req with exhausted := true }]) := by
  simp [runLoop, step, ht, hf]

theorem exhausted_get_halts_loop_witness :
    runLoop 5 { freeMaps := [], authenticatedMap := [], appCtxs := [], userMap := [] }
        [({ type := .Get, session := { userId := 7 } }, 10),
         ({ type := .Fetch, id := 3 }, 11),
         ({ type := .CleanUp }, 12)]
      = ({ freeMaps := [], authenticatedMap := [], appCtxs := [], userMap := [] },
         [{ type := .Get, session := { userId := 7 }, exhausted := true }]) :=
  exhausted_get_halts_loop 5
    { freeMaps := [], authenticatedMap := [], appCtxs := [], userMap := [] }
    { type := .Get, session := { userId := 7 } } 10
    [({ type := .Fetch, id := 3 }, 11), ({ type := .CleanUp }, 12)] rfl rfl

end CuttleWS
